import Mathlib

/-!
Verification development for the kube-dump repository (two Python programs:
`kube-dump.py` and `kube_dump/main.py`).  The Python code is shallowly
embedded: dynamic JSON-like documents become the inductive `Json`, Python
dicts become ordered association lists with in-place update (`setKey`), the
Kubernetes API server becomes an explicit environment of responses (`Env`),
and the side effects of a run (file writes, log warnings, network calls)
become an explicit event state (`St`) threaded through the translated
functions.  Errors (KeyError / ApiException / AttributeError) abort the run,
as in Python, and are modelled by an `Option Err` outcome.
-/

namespace KubeDump

/-! ## Ordered association lists: the embedding of Python `dict`.
Python dicts preserve insertion order; assigning to an existing key keeps its
position, assigning to a fresh key appends.  Every dict a run builds has
unique keys, so replacing the first occurrence is exactly dict assignment. -/

/-- Lookup of the first entry with the given key. -/
def alookup {α : Type} : List (String × α) → String → Option α
  | [], _ => none
  | (k', v) :: m, k => if k' = k then some v else alookup m k

/-- Python dict assignment `m[k] = v`: overwrite in place when the key is
present, append otherwise. -/
def setKey {α : Type} : List (String × α) → String → α → List (String × α)
  | [], k, v => [(k, v)]
  | (k', v') :: m, k, v => if k' = k then (k, v) :: m else (k', v') :: setKey m k v

/-- The last element of a list satisfying a predicate, if any. -/
def lastMatch {α : Type} (p : α → Bool) : List α → Option α
  | [] => none
  | a :: l => match lastMatch p l with
    | some b => some b
    | none => if p a then some a else none

/-! ## Dynamic documents (the objects the Kubernetes API returns). -/

/-- A structured document: the embedding of the dynamic dict/list/scalar
values the Python code manipulates. -/
inductive Json where
  | str : String → Json
  | num : Int → Json
  | bool : Bool → Json
  | null : Json
  | arr : List Json → Json
  | obj : List (String × Json) → Json

/-- `doc[k]` on a mapping; `none` stands for the KeyError/TypeError a failed
subscript raises (the callers treat it as a fatal error). -/
def Json.lookup : Json → String → Option Json
  | .obj kvs, k => alookup kvs k
  | _, _ => none

/-- The keys of a mapping, for Python's `k in d` membership test. -/
def Json.keys : Json → List String
  | .obj kvs => kvs.map (fun p => p.1)
  | _ => []

/-- `doc[k] = v` on a mapping.  A non-mapping is returned unchanged: the
translated code only assigns to documents it has already subscripted
successfully, so that branch is never reached in a run. -/
def Json.set : Json → String → Json → Json
  | .obj kvs, k, v => .obj (setKey kvs k v)
  | j, _, _ => j

/-! One fixed structural rendering of a document, standing in for the
external serializers `yaml.safe_dump` and `json.dump`.  Claims only ever
compare serializer output with serializer output, so the exact text is
immaterial — what matters is that each is a fixed total function. -/

mutual
/-- Rendering of one document. -/
def render : Json → String
  | .str s => "str " ++ s
  | .num n => "num " ++ toString n
  | .bool b => if b then "true" else "false"
  | .null => "null"
  | .arr l => "[" ++ renderArr l ++ "]"
  | .obj l => "(" ++ renderObj l ++ ")"
/-- Rendering of a sequence of documents. -/
def renderArr : List Json → String
  | [] => ""
  | j :: l => render j ++ ", " ++ renderArr l
/-- Rendering of a mapping's entries. -/
def renderObj : List (String × Json) → String
  | [] => ""
  | (k, v) :: l => k ++ ": " ++ render v ++ ", " ++ renderObj l
end

/-- Stands for `yaml.safe_dump(obj, default_flow_style=False)`. -/
def yamlDump (j : Json) : String := "yaml." ++ render j

/-- Stands for `json.dump(obj, fp, indent=2)`. -/
def jsonDump (j : Json) : String := "json." ++ render j

/-! ## Data model of discovery (kube-dump.py).

`V1APIResource` as the code uses it: plural `name`, `kind`, `namespaced`,
`verbs`; the fields `gv` and `core` embed the back-references `r.gv` and
`r.g` that `Dumper.dump_all` attaches during discovery (`r.g` is only ever
compared against the synthetic core group with `is`, so a Bool suffices). -/

structure APIResource where
  name : String
  kind : String
  namespaced : Bool
  verbs : List String
  gv : String := ""
  core : Bool := false
deriving DecidableEq

/-- A group-version once discovery has fetched and filtered its resource
types (`v.resources` after the mutations in `Dumper.dump_all`). -/
structure APIVersion where
  group_version : String
  resources : List APIResource
deriving DecidableEq

/-- An API group as `GET /apis/` reports it: the preferred version's
`group_version` identifier and the version identifiers, in order. -/
structure APIGroupDisc where
  preferred_version : String
  versions : List String
deriving DecidableEq

/-- The server: one fixed response per endpoint.  `resourcesOf` is keyed by
the group-version resource path, `listOf` by the collection list path, and
`objOf` by the single-object path; `objOf` may fail with the HTTP status of
a `kubernetes.client.rest.ApiException`. -/
structure Env where
  groups : List APIGroupDisc
  resourcesOf : String → List APIResource
  listOf : String → Json
  objOf : String → Except Nat String

/-- The recognized configuration of `kube-dump.py` (the attributes set on
`Dumper` by `main`). -/
structure Config where
  output_dir : String
  format : String
  clean_output : Bool
  skip_owned : Bool
  improved_yaml : Bool
  skip_gks : List String
deriving DecidableEq

/-- The observable events of a run: file writes (path, content) in order —
an `open(..., 'w')` is an event writing `""`, the truncation — plus the
warnings logged and the network calls issued. -/
structure St where
  writes : List (String × String) := []
  warnings : List String := []
  calls : List String := []
deriving DecidableEq

/-- A fatal error: an `ApiException` carrying an HTTP status, or the
KeyError/TypeError/AttributeError a malformed response raises. -/
inductive Err where
  | api : Nat → Err
  | shape : String → Err
deriving DecidableEq

def recordCall (st : St) (p : String) : St := { st with calls := st.calls ++ [p] }
def writeFile (st : St) (p c : String) : St := { st with writes := st.writes ++ [(p, c)] }
def warn (st : St) (w : String) : St := { st with warnings := st.warnings ++ [w] }

/-- `get_api_group_version_resource_path` of both programs. -/
def get_api_group_version_resource_path (api_group_version : String) : String :=
  if api_group_version = "v1" then "/api/v1" else "/apis/" ++ api_group_version

/-- Character-wise string prefix (the paths `shutil.rmtree` removes are
those under the output root). -/
def strPrefix (p s : String) : Bool := p.data.isPrefixOf s.data

/-- The filesystem after a sequence of write events, applied to an initial
tree: later writes to the same path win. -/
def materialize (fs : List (String × String)) (ws : List (String × String)) : List (String × String) :=
  ws.foldl (fun m pc => setKey m pc.1 pc.2) fs

/-- `obj['apiVersion'] = result['apiVersion']; obj['kind'] = resource.kind`:
the stamping of one listed item, identical in both programs (`av` is the
collection-level `result['apiVersion']` value). -/
def stamp (av : Json) (kind : String) (obj : Json) : Json :=
  (obj.set "apiVersion" av).set "kind" (.str kind)

/-- The single-object path of the improved-fidelity fetch, identical in both
programs: through the namespace for namespaced types, directly under the
list path for cluster-scoped ones. -/
def obj_path_of (resource_path list_path : String) (resource : APIResource)
    (obj_namespace obj_name : String) : String :=
  if resource.namespaced then
    resource_path ++ "/namespaces/" ++ obj_namespace ++ "/" ++ resource.name ++ "/" ++ obj_name
  else list_path ++ "/" ++ obj_name

/-! ## The embedding of `kube-dump.py` (namespace `Script`). -/

namespace Script

/-- Discovery's per-group-version filtering, `Dumper.dump_all` lines 88-89:
drop compound (subresource) names, keep only listable types. -/
def filter_resources (rs : List APIResource) : List APIResource :=
  (rs.filter (fun r => !(r.name.toList.contains '/'))).filter (fun r => r.verbs.contains "list")

/-- The back-references attached at lines 90-92: `r.gv = v`, `r.g = g`. -/
def tag_resources (gv : String) (core : Bool) (rs : List APIResource) : List APIResource :=
  rs.map (fun r => { r with gv := gv, core := core })

/-- One group-version's discovery: fetch, filter, tag. -/
def discover_version (env : Env) (core : Bool) (gv : String) : APIVersion :=
  { group_version := gv,
    resources := tag_resources gv core
      (filter_resources (env.resourcesOf (get_api_group_version_resource_path gv))) }

/-- The discovery loop over one group's versions, recording the network
call per version. -/
def discover_versions (env : Env) (core : Bool) : List String → St → List APIVersion × St
  | [], st => ([], st)
  | gv :: gvs, st =>
    let st := recordCall st (get_api_group_version_resource_path gv)
    let (vs, st') := discover_versions env core gvs st
    (discover_version env core gv :: vs, st')

/-- `g.preferred_version` after the discovery loop: the last version whose
identifier equals the declared preferred identifier (`if
g.preferred_version.group_version == v.group_version: g.preferred_version
= v`); `none` when no version matches, in which case pass 2 of the
resolver raises (AttributeError on `.resources`). -/
def preferred_of (vs : List APIVersion) (pref : String) : Option APIVersion :=
  lastMatch (fun v => v.group_version == pref) vs

/-- `for r in rs: registry[r.kind] = r`. -/
def insert_resources (m : List (String × APIResource)) (rs : List APIResource) :
    List (String × APIResource) :=
  rs.foldl (fun m r => setKey m r.kind r) m

/-- The Kind Resolver's two passes for one group (lines 94-104): a full
insert pass over all versions in discovery order, then a re-insert pass
over the preferred version's resources. -/
def best_resources (vs : List APIVersion) (pv : APIVersion) : List (String × APIResource) :=
  insert_resources (vs.foldl (fun m v => insert_resources m v.resources) []) pv.resources

/-- `'_core' if resource.g is core_api_group else resource.gv.group_version
.split('/', maxsplit=1)[0]`. -/
def api_group_of (r : APIResource) : String :=
  if r.core then "_core" else (r.gv.splitOn "/").headD r.gv

/-- `os.path.join(self.output_dir, obj_namespace, api_group, resource.kind)`
joined with the object name: the output path of one object, without its
extension (lines 141-144). -/
def object_filepath_of (cfg : Config) (api_group kind obj_namespace obj_name : String) : String :=
  cfg.output_dir ++ "/" ++ obj_namespace ++ "/" ++ api_group ++ "/" ++ kind ++ "/" ++ obj_name

/-- The body of the `for obj in objects` loop of `Dumper.dump_resource`
(lines 125-169), for one object.  The steps in source order: read
`metadata.name`, read `metadata.namespace` (namespaced) or use the sentinel
`'_'`, stamp apiVersion/kind from the collection result and the resource
type, skip when owned, then open the output file (the `""` write is the
truncation `open(..., 'w')` performs) and serialize — for improved YAML via
the per-object fetch with its 406 fallback. -/
def dump_object (cfg : Config) (env : Env) (api_group resource_path list_path : String)
    (resource : APIResource) (result obj : Json) (st : St) : St × Option Err :=
  match obj.lookup "metadata" with
  | none => (st, some (.shape "metadata"))
  | some md =>
  match md.lookup "name" with
  | none => (st, some (.shape "metadata.name"))
  | some nameJ =>
  match (if resource.namespaced then md.lookup "namespace" else some (.str "_")) with
  | none => (st, some (.shape "metadata.namespace"))
  | some nsJ =>
  match result.lookup "apiVersion" with
  | none => (st, some (.shape "apiVersion"))
  | some av =>
  let stamped := stamp av resource.kind obj
  if cfg.skip_owned ∧ "ownerReferences" ∈ md.keys then (st, none)
  else
  match nameJ, nsJ with
  | .str obj_name, .str obj_namespace =>
    let object_filepath := object_filepath_of cfg api_group resource.kind obj_namespace obj_name
    if cfg.format = "yaml" then
      let p := object_filepath ++ ".yaml"
      let st := writeFile st p ""
      if cfg.improved_yaml then
        let obj_path := obj_path_of resource_path list_path resource obj_namespace obj_name
        let st := recordCall st obj_path
        match env.objOf obj_path with
        | .ok data => (writeFile st p data, none)
        | .error status =>
          if status = 406 then
            (writeFile
              (warn st ("Cant get improved yaml " ++ obj_path ++ ", fallback to ordinary yaml"))
              p (yamlDump stamped), none)
          else (st, some (.api status))
      else (writeFile st p (yamlDump stamped), none)
    else if cfg.format = "json" then
      let p := object_filepath ++ ".json"
      let st := writeFile st p ""
      (writeFile st p (jsonDump stamped), none)
    else (st, none)
  | _, _ => (st, some (.shape "os.path.join"))

/-- The `for obj in objects` loop: objects in order, first fatal error
aborts. -/
def dump_objects (cfg : Config) (env : Env) (api_group resource_path list_path : String)
    (resource : APIResource) (result : Json) : List Json → St → St × Option Err
  | [], st => (st, none)
  | o :: os, st =>
    match dump_object cfg env api_group resource_path list_path resource result o st with
    | (st', none) => dump_objects cfg env api_group resource_path list_path resource result os st'
    | (st', some e) => (st', some e)

/-- `Dumper.dump_resource`: the collection-level GET, extraction of
`result['items']`, then the per-object loop. -/
def dump_resource (cfg : Config) (env : Env) (api_group resource_path : String)
    (resource : APIResource) (st : St) : St × Option Err :=
  let list_path := resource_path ++ "/" ++ resource.name
  let st := recordCall st list_path
  let result := env.listOf list_path
  match result.lookup "items" with
  | some (.arr objects) =>
      dump_objects cfg env api_group resource_path list_path resource result objects st
  | _ => (st, some (.shape "items"))

/-- The final loop of `Dumper.dump_all` (lines 106-118) over one group's
registry values: compute the group label, skip when `'{group}/{kind}'` is
in `skip_gks`, else dump the resource type. -/
def dump_group_resources (cfg : Config) (env : Env) : List APIResource → St → St × Option Err
  | [], st => (st, none)
  | r :: rs, st =>
    let api_group := api_group_of r
    let gk := api_group ++ "/" ++ r.kind
    if gk ∈ cfg.skip_gks then dump_group_resources cfg env rs st
    else
      match dump_resource cfg env api_group (get_api_group_version_resource_path r.gv) r st with
      | (st', none) => dump_group_resources cfg env rs st'
      | (st', some e) => (st', some e)

/-- The synthetic core `"v1"` group prepended by `dump_all`. -/
def core_api_group : APIGroupDisc := { preferred_version := "v1", versions := ["v1"] }

/-- The discovery loop over all groups (with the core-group flag). -/
def discover_all (env : Env) :
    List (Bool × APIGroupDisc) → St → List (Bool × APIGroupDisc × List APIVersion) × St
  | [], st => ([], st)
  | (c, g) :: gs, st =>
    let (vs, st) := discover_versions env c g.versions st
    let (rest, st') := discover_all env gs st
    ((c, g, vs) :: rest, st')

/-- The two registry passes for every group; fails like Python does
(AttributeError) when a group's preferred version matched no discovered
version. -/
def build_registries :
    List (Bool × APIGroupDisc × List APIVersion) → Except Err (List (List (String × APIResource)))
  | [] => .ok []
  | (_, g, vs) :: gs =>
    match preferred_of vs g.preferred_version with
    | none => .error (.shape "preferred_version.resources")
    | some pv =>
      match build_registries gs with
      | .ok rest => .ok (best_resources vs pv :: rest)
      | .error e => .error e

/-- The dump loop over every group's registry values. -/
def dump_registries (cfg : Config) (env : Env) :
    List (List (String × APIResource)) → St → St × Option Err
  | [], st => (st, none)
  | reg :: regs, st =>
    match dump_group_resources cfg env (reg.map (fun p => p.2)) st with
    | (st', none) => dump_registries cfg env regs st'
    | (st', some e) => (st', some e)

/-- `Dumper.dump_all` of kube-dump.py: group discovery, removal of the
deprecated `extensions/v1beta1`-preferred group, the synthetic core group
prepended, per-version resource discovery, the two resolver passes, then
the dump loop.  (`shutil.rmtree` acts on the pre-existing tree, which the
event state does not hold; `run_tree` below accounts for it.) -/
def dump_all (cfg : Config) (env : Env) : St × Option Err :=
  let st : St := {}
  let st := recordCall st "/apis/"
  let groups := (true, core_api_group) ::
    (env.groups.filter (fun g => g.preferred_version ≠ "extensions/v1beta1")).map
      (fun g => (false, g))
  let (discovered, st) := discover_all env groups st
  match build_registries discovered with
  | .error e => (st, some e)
  | .ok regs => dump_registries cfg env regs st

/-- `shutil.rmtree(self.output_dir, ignore_errors=True)` when
`clean_output` is set: every path under the output root disappears. -/
def clean_fs (cfg : Config) (fs : List (String × String)) : List (String × String) :=
  if cfg.clean_output then
    fs.filter (fun pc => !(strPrefix (cfg.output_dir ++ "/") pc.1))
  else fs

/-- The output tree a run leaves: the initial tree, cleaned when
`clean_output` is set, with the run's write events applied in order. -/
def run_tree (cfg : Config) (env : Env) (fs : List (String × String)) : List (String × String) :=
  materialize (clean_fs cfg fs) (dump_all cfg env).1.writes

end Script

/-! ## The embedding of `kube_dump/main.py` (namespace `Pkg`).

The older program: no group label in paths, a bare-kind skip list, a global
`dumped_kinds` set deduplicating kinds across group-versions, and no
recovery on the improved fetch. -/

namespace Pkg

/-- The attributes set on `Dumper.__init__` of `kube_dump/main.py`. -/
structure MConfig where
  output_dir : String
  use_yaml : Bool
  clean_output : Bool
  skip_owned : Bool
  improved_yaml : Bool
  skip_kinds : List String
deriving DecidableEq

/-- This program's output path of one object, without its extension: no
group segment, `os.path.join(self.output_dir, obj_namespace,
resource.kind)` joined with the object name. -/
def object_filepath_of (cfg : MConfig) (kind obj_namespace obj_name : String) : String :=
  cfg.output_dir ++ "/" ++ obj_namespace ++ "/" ++ kind ++ "/" ++ obj_name

/-- The body of the `for obj in objects` loop of this program's
`Dumper.dump_resource`: skip-owned check first, then stamping, then the
path (no group segment), then the serialization — the improved fetch has
no `try`, so any `ApiException` there is fatal. -/
def dump_object (cfg : MConfig) (env : Env) (resource_path list_path : String)
    (resource : APIResource) (result obj : Json) (st : St) : St × Option Err :=
  match obj.lookup "metadata" with
  | none => (st, some (.shape "metadata"))
  | some md =>
  if cfg.skip_owned ∧ "ownerReferences" ∈ md.keys then (st, none)
  else
  match result.lookup "apiVersion" with
  | none => (st, some (.shape "apiVersion"))
  | some av =>
  let stamped := stamp av resource.kind obj
  match md.lookup "name" with
  | none => (st, some (.shape "metadata.name"))
  | some nameJ =>
  match (if resource.namespaced then md.lookup "namespace" else some (.str "_")) with
  | none => (st, some (.shape "metadata.namespace"))
  | some nsJ =>
  match nameJ, nsJ with
  | .str obj_name, .str obj_namespace =>
    let object_filepath := object_filepath_of cfg resource.kind obj_namespace obj_name
    if cfg.use_yaml then
      let p := object_filepath ++ ".yaml"
      let st := writeFile st p ""
      if cfg.improved_yaml then
        let obj_path := obj_path_of resource_path list_path resource obj_namespace obj_name
        let st := recordCall st obj_path
        match env.objOf obj_path with
        | .ok data => (writeFile st p data, none)
        | .error status => (st, some (.api status))
      else (writeFile st p (yamlDump stamped), none)
    else
      let p := object_filepath ++ ".json"
      let st := writeFile st p ""
      (writeFile st p (jsonDump stamped), none)
  | _, _ => (st, some (.shape "os.path.join"))

/-- The `for obj in objects` loop. -/
def dump_objects (cfg : MConfig) (env : Env) (resource_path list_path : String)
    (resource : APIResource) (result : Json) : List Json → St → St × Option Err
  | [], st => (st, none)
  | o :: os, st =>
    match dump_object cfg env resource_path list_path resource result o st with
    | (st', none) => dump_objects cfg env resource_path list_path resource result os st'
    | (st', some e) => (st', some e)

/-- This program's `Dumper.dump_resource`. -/
def dump_resource (cfg : MConfig) (env : Env) (resource_path : String)
    (resource : APIResource) (st : St) : St × Option Err :=
  let list_path := resource_path ++ "/" ++ resource.name
  let st := recordCall st list_path
  let result := env.listOf list_path
  match result.lookup "items" with
  | some (.arr objects) =>
      dump_objects cfg env resource_path list_path resource result objects st
  | _ => (st, some (.shape "items"))

/-- The loop state of this program's `dump_all`: the `dumped_kinds` set
(seeded with `skip_kinds`), the event state, the first fatal error, and —
as pure instrumentation mirroring the call trace — the kinds for which
`dump_resource` has been invoked, in order. -/
structure Acc where
  dumped : List String
  invoked : List String
  st : St
  err : Option Err
deriving DecidableEq

/-- The body of the inner `for resource in resources` loop: skip
non-listable types, skip kinds already in `dumped_kinds`, else dump and add
the kind to `dumped_kinds`. -/
def step_resource (cfg : MConfig) (env : Env) (resource_path : String)
    (acc : Acc) (r : APIResource) : Acc :=
  match acc.err with
  | some _ => acc
  | none =>
    if "list" ∈ r.verbs then
      if r.kind ∈ acc.dumped then acc
      else
        let (st', e) := dump_resource cfg env resource_path r acc.st
        { dumped := if e = none then acc.dumped ++ [r.kind] else acc.dumped,
          invoked := acc.invoked ++ [r.kind],
          st := st', err := e }
    else acc

/-- The body of the outer `for api_group_version in api_group_versions`
loop: fetch the group-version's resource types and run the inner loop. -/
def step_gv (cfg : MConfig) (env : Env) (acc : Acc) (gv : String) : Acc :=
  match acc.err with
  | some _ => acc
  | none =>
    let resource_path := get_api_group_version_resource_path gv
    let acc := { acc with st := recordCall acc.st resource_path }
    (env.resourcesOf resource_path).foldl (step_resource cfg env resource_path) acc

/-- The group-version list this program iterates: every group's preferred
version, then `"v1"` appended, with `extensions/v1beta1` moved to the back
when present. -/
def group_versions (env : Env) : List String :=
  let gvs := (env.groups.map (fun g => g.preferred_version)) ++ ["v1"]
  if "extensions/v1beta1" ∈ gvs then
    gvs.erase "extensions/v1beta1" ++ ["extensions/v1beta1"]
  else gvs

/-- This program's `Dumper.dump_all`. -/
def dump_all (cfg : MConfig) (env : Env) : Acc :=
  let st : St := recordCall {} "/apis/"
  (group_versions env).foldl (step_gv cfg env)
    { dumped := cfg.skip_kinds, invoked := [], st := st, err := none }

end Pkg

/-! ## Concrete servers, objects and configurations, used by the witnesses
and counterexamples below. -/

/-- A server whose `batch` group exposes kind CronJob in two non-preferred
versions and kind Job in the preferred `batch/v1`. -/
def envBatch : Env :=
  { groups := [{ preferred_version := "batch/v1",
                 versions := ["batch/v1beta1", "batch/v2alpha1", "batch/v1"] }]
    resourcesOf := fun p =>
      if p = "/apis/batch/v1beta1" then
        [{ name := "cronjobs", kind := "CronJob", namespaced := true, verbs := ["list"] }]
      else if p = "/apis/batch/v2alpha1" then
        [{ name := "cronjobs", kind := "CronJob", namespaced := true, verbs := ["list"] }]
      else if p = "/apis/batch/v1" then
        [{ name := "jobs", kind := "Job", namespaced := true, verbs := ["list"] }]
      else []
    listOf := fun _ => .null
    objOf := fun _ => .ok "" }

/-- `batch/v1beta1` as discovery processes it. -/
def vBeta : APIVersion := Script.discover_version envBatch false "batch/v1beta1"

/-- `batch/v2alpha1` as discovery processes it. -/
def vAlpha : APIVersion := Script.discover_version envBatch false "batch/v2alpha1"

/-- `batch/v1` as discovery processes it. -/
def vOne : APIVersion := Script.discover_version envBatch false "batch/v1"

/-- The `batch` group's discovered versions, in discovery order. -/
def vsBatch : List APIVersion := [vBeta, vAlpha, vOne]

/-- A pod document as a collection listing returns it: metadata only, no
apiVersion/kind of its own. -/
def objWeb : Json := .obj [("metadata", .obj [("name", .str "web"), ("namespace", .str "default")])]

/-- A pod document owned by a controller: `ownerReferences` present (an
empty sequence — presence is what matters). -/
def objOwned : Json :=
  .obj [("metadata", .obj [("name", .str "owned"), ("namespace", .str "default"),
    ("ownerReferences", .arr [])])]

/-- The `pods` resource type of the core group, as discovery tags it. -/
def resPods : APIResource :=
  { name := "pods", kind := "Pod", namespaced := true, verbs := ["get", "list"],
    gv := "v1", core := true }

/-- A collection list response: apiVersion/kind once at collection level
(`kind` carries the `-List` suffix), items without either. -/
def resultPods : Json :=
  .obj [("apiVersion", .str "v1"), ("kind", .str "PodList"),
    ("items", .arr [objWeb, objOwned])]

/-- A server for single-resource runs over `resultPods`. -/
def envPods (objResp : Except Nat String) : Env :=
  { groups := []
    resourcesOf := fun p => if p = "/api/v1" then [resPods] else []
    listOf := fun p => if p = "/api/v1/pods" then resultPods else .null
    objOf := fun _ => objResp }

/-- The default `kube-dump.py` configuration (`output_dir = "dump"`, YAML,
clean, skip owned, improved fidelity), with a given skip list. -/
def cfgY (sk : List String) : Config :=
  { output_dir := "dump", format := "yaml", clean_output := true, skip_owned := true,
    improved_yaml := true, skip_gks := sk }

/-- The fast-fidelity variant (`--fast`). -/
def cfgFast : Config :=
  { output_dir := "dump", format := "yaml", clean_output := true, skip_owned := true,
    improved_yaml := false, skip_gks := [] }

/-- A ConfigMap document for the skip-list scenario. -/
def objCm : Json := .obj [("metadata", .obj [("name", .str "cm1"), ("namespace", .str "default")])]

/-- A server whose core group exposes ConfigMap and Pod, each with one
listed object. -/
def envCmPods : Env :=
  { groups := []
    resourcesOf := fun p => if p = "/api/v1" then
        [ { name := "configmaps", kind := "ConfigMap", namespaced := true, verbs := ["get", "list"] },
          { name := "pods", kind := "Pod", namespaced := true, verbs := ["get", "list"] } ]
      else []
    listOf := fun p =>
      if p = "/api/v1/configmaps" then
        .obj [("apiVersion", .str "v1"), ("kind", .str "ConfigMapList"), ("items", .arr [objCm])]
      else if p = "/api/v1/pods" then
        .obj [("apiVersion", .str "v1"), ("kind", .str "PodList"), ("items", .arr [objWeb])]
      else .null
    objOf := fun p => .ok ("served " ++ p) }

/-- A deployment collection response whose collection-level `kind` is the
list kind, not the item kind. -/
def resultDeployList : Json :=
  .obj [("apiVersion", .str "apps/v1"), ("kind", .str "DeploymentList"),
    ("items", .arr [objWeb])]

/-- The loop invariant of `Pkg.dump_all`: the kinds for which
`dump_resource` has been invoked are pairwise distinct and disjoint from
the configured skip list, every skip-listed kind is in `dumped_kinds`, and
(while no fatal error has occurred) every invoked kind is in
`dumped_kinds`. -/
def Pkg.Inv (cfg : Pkg.MConfig) (acc : Pkg.Acc) : Prop :=
  acc.invoked.Nodup ∧ (∀ k ∈ acc.invoked, k ∉ cfg.skip_kinds) ∧
    (∀ k ∈ cfg.skip_kinds, k ∈ acc.dumped) ∧
    (acc.err = none → ∀ k ∈ acc.invoked, k ∈ acc.dumped)

/-! ## Library lemmas about the dict, registry and filesystem models. -/

/-- Lookup after Python dict assignment `m[k] = v`. -/
theorem alookup_setKey {α : Type} (m : List (String × α)) (k k' : String) (v : α) :
    alookup (setKey m k v) k' = if k' = k then some v else alookup m k' := by
  induction m with
  | nil =>
    by_cases h : k' = k
    · subst h; simp [setKey, alookup]
    · have h' : ¬ k = k' := fun hh => h hh.symm
      simp [setKey, alookup, h, h']
  | cons p m ih =>
    obtain ⟨k₀, v₀⟩ := p
    by_cases h0 : k₀ = k
    · subst h0
      by_cases h1 : k' = k₀
      · subst h1; simp [setKey, alookup]
      · have h1' : ¬ k₀ = k' := fun hh => h1 hh.symm
        simp [setKey, alookup, h1, h1']
    · by_cases h1 : k₀ = k'
      · have h2 : ¬ k' = k := fun hh => h0 (h1.trans hh)
        simp [setKey, alookup, h0, h1, h2]
      · simp [setKey, alookup, h0, h1, ih]

theorem lastMatch_mem {α : Type} (p : α → Bool) (l : List α) (a : α)
    (h : lastMatch p l = some a) : a ∈ l ∧ p a = true := by
  induction l with
  | nil => simp [lastMatch] at h
  | cons b l ih =>
    simp only [lastMatch] at h
    cases hl : lastMatch p l with
    | some c =>
      rw [hl] at h
      cases h
      exact ⟨List.mem_cons_of_mem _ (ih hl).1, (ih hl).2⟩
    | none =>
      rw [hl] at h
      by_cases hp : p b = true
      · rw [if_pos hp] at h
        cases h
        exact ⟨List.mem_cons_self _ _, hp⟩
      · rw [if_neg hp] at h
        cases h

theorem lastMatch_isSome {α : Type} (p : α → Bool) (l : List α) (a : α)
    (ha : a ∈ l) (hp : p a = true) : ∃ b, lastMatch p l = some b := by
  induction l with
  | nil => cases ha
  | cons b l ih =>
    simp only [lastMatch]
    cases hl : lastMatch p l with
    | some c => exact ⟨c, rfl⟩
    | none =>
      rcases List.mem_cons.mp ha with h | h
      · subst h
        exact ⟨a, by rw [if_pos hp]⟩
      · obtain ⟨c, hc⟩ := ih h
        rw [hc] at hl
        cases hl

/-- A property preserved by every step of a fold holds of the fold. -/
theorem foldl_inv {α β : Type} {P : β → Prop} (f : β → α → β)
    (hstep : ∀ b a, P b → P (f b a)) : ∀ (l : List α) (b : β), P b → P (l.foldl f b) := by
  intro l
  induction l with
  | nil => intro b hb; exact hb
  | cons a l ih => intro b hb; exact ih _ (hstep _ _ hb)

/-- Registry lookup after an insert pass: the last inserted resource of the
looked-up kind wins; kinds the pass never inserts keep their entry. -/
theorem alookup_insert_resources (l : List APIResource)
    (m : List (String × APIResource)) (k : String) :
    alookup (Script.insert_resources m l) k =
      match lastMatch (fun r => r.kind == k) l with
      | some r => some r
      | none => alookup m k := by
  induction l generalizing m with
  | nil => simp [Script.insert_resources, lastMatch]
  | cons r l ih =>
    show alookup (Script.insert_resources (setKey m r.kind r) l) k = _
    rw [ih]
    simp only [lastMatch]
    cases hl : lastMatch (fun r => r.kind == k) l with
    | some r' => rfl
    | none =>
      rw [alookup_setKey]
      by_cases h : r.kind = k
      · simp [h]
      · have h' : ¬ k = r.kind := fun hh => h hh.symm
        simp [h, h']

/-- Filesystem lookup after applying a run's write events: the last write
to the path wins; untouched paths keep their initial content. -/
theorem alookup_materialize (ws : List (String × String))
    (fs : List (String × String)) (p : String) :
    alookup (materialize fs ws) p =
      match lastMatch (fun pc => pc.1 == p) ws with
      | some pc => some pc.2
      | none => alookup fs p := by
  induction ws generalizing fs with
  | nil => simp [materialize, lastMatch]
  | cons w ws ih =>
    show alookup (materialize (setKey fs w.1 w.2) ws) p = _
    rw [ih]
    simp only [lastMatch]
    cases hl : lastMatch (fun pc => pc.1 == p) ws with
    | some pc => rfl
    | none =>
      rw [alookup_setKey]
      by_cases h : w.1 = p
      · simp [h]
      · have h' : ¬ p = w.1 := fun hh => h hh.symm
        simp [h, h']

/-- After a run whose last write to `p` is `c`, the tree holds `c` at `p`. -/
theorem alookup_materialize_last (fs ws : List (String × String)) (p c : String) :
    alookup (materialize fs (ws ++ [(p, c)])) p = some c := by
  unfold materialize
  rw [List.foldl_append]
  show alookup (setKey _ p c) p = some c
  rw [alookup_setKey]
  simp

/-- `shutil.rmtree` leaves nothing under the output root. -/
theorem alookup_clean_fs (cfg : Config) (fs : List (String × String)) (p : String)
    (hc : cfg.clean_output = true) (hp : strPrefix (cfg.output_dir ++ "/") p = true) :
    alookup (Script.clean_fs cfg fs) p = none := by
  unfold Script.clean_fs
  rw [if_pos hc]
  induction fs with
  | nil => simp [alookup]
  | cons pc fs ih =>
    by_cases hq : strPrefix (cfg.output_dir ++ "/") pc.1
    · simpa [List.filter, hq] using ih
    · have hne : pc.1 ≠ p := fun h => hq (h ▸ hp)
      obtain ⟨q, c⟩ := pc
      simp only at hne
      simp [List.filter, hq, alookup, hne, ih]

/-- Stamping sets exactly the two top-level keys: `apiVersion` to the
collection-level value handed in, `kind` to the resource type's kind. -/
theorem stamp_lookup (av : Json) (kind : String) (kvs : List (String × Json)) :
    (stamp av kind (.obj kvs)).lookup "apiVersion" = some av ∧
      (stamp av kind (.obj kvs)).lookup "kind" = some (.str kind) := by
  constructor
  · show alookup (setKey (setKey kvs "apiVersion" av) "kind" (.str kind)) "apiVersion" = some av
    rw [alookup_setKey, if_neg (by decide), alookup_setKey, if_pos rfl]
  · show alookup (setKey (setKey kvs "apiVersion" av) "kind" (.str kind)) "kind" = some (.str kind)
    rw [alookup_setKey, if_pos rfl]

/-- The write phase of `Script.dump_object` for an object that passes the
skip check: in YAML format the object's file is opened (truncated) and then
written — every new write is at the object's `.yaml` path; in JSON format
the file holds the generic serialization of the stamped object. -/
theorem dump_object_writes (cfg : Config) (env : Env)
    (api_group resource_path list_path : String) (resource : APIResource)
    (result obj md av : Json) (obj_name obj_namespace : String) (st : St)
    (hmd : obj.lookup "metadata" = some md)
    (hname : md.lookup "name" = some (.str obj_name))
    (hns : (if resource.namespaced then md.lookup "namespace" else some (.str "_"))
        = some (.str obj_namespace))
    (hav : result.lookup "apiVersion" = some av)
    (hown : ¬ (cfg.skip_owned = true ∧ "ownerReferences" ∈ md.keys)) :
    (cfg.format = "yaml" →
      ∃ rest,
        (Script.dump_object cfg env api_group resource_path list_path resource result obj st).1.writes
          = st.writes ++
            (Script.object_filepath_of cfg api_group resource.kind obj_namespace obj_name
              ++ ".yaml", "") :: rest ∧
        ∀ pc ∈ rest,
          pc.1 = Script.object_filepath_of cfg api_group resource.kind obj_namespace obj_name
            ++ ".yaml") ∧
    (cfg.format = "json" →
      (Script.dump_object cfg env api_group resource_path list_path resource result obj st).1.writes
        = st.writes ++
          [(Script.object_filepath_of cfg api_group resource.kind obj_namespace obj_name
              ++ ".json", ""),
           (Script.object_filepath_of cfg api_group resource.kind obj_namespace obj_name
              ++ ".json", jsonDump (stamp av resource.kind obj))]) := by
  constructor
  · intro hfmt
    simp only [Script.dump_object, hmd, hname, hns, hav]
    rw [if_neg hown]
    simp only [hfmt]
    by_cases himp : cfg.improved_yaml
    · simp only [himp]
      cases henv : env.objOf (obj_path_of resource_path list_path resource obj_namespace obj_name) with
      | ok d =>
        refine ⟨[(Script.object_filepath_of cfg api_group resource.kind obj_namespace obj_name
          ++ ".yaml", d)], ?_, ?_⟩ <;> simp [henv, writeFile, recordCall, warn]
      | error s =>
        by_cases hs : s = 406
        · subst hs
          refine ⟨[(Script.object_filepath_of cfg api_group resource.kind obj_namespace obj_name
            ++ ".yaml", yamlDump (stamp av resource.kind obj))], ?_, ?_⟩ <;>
            simp [henv, writeFile, recordCall, warn]
        · refine ⟨[], ?_, ?_⟩ <;> simp [henv, hs, writeFile, recordCall, warn]
    · simp only [Bool.not_eq_true] at himp
      refine ⟨[(Script.object_filepath_of cfg api_group resource.kind obj_namespace obj_name
        ++ ".yaml", yamlDump (stamp av resource.kind obj))], ?_, ?_⟩ <;>
        simp [himp, writeFile, recordCall, warn]
  · intro hfmt
    simp only [Script.dump_object, hmd, hname, hns, hav]
    rw [if_neg hown]
    simp only [hfmt]
    simp [writeFile, recordCall, warn]

/-- The inner loop body of `Pkg.dump_all` preserves the invariant. -/
theorem step_resource_inv (cfg : Pkg.MConfig) (env : Env) (resource_path : String)
    (acc : Pkg.Acc) (r : APIResource) (hP : Pkg.Inv cfg acc) :
    Pkg.Inv cfg (Pkg.step_resource cfg env resource_path acc r) := by
  obtain ⟨hnd, hsk, hsub, hdump⟩ := hP
  unfold Pkg.step_resource
  cases herr : acc.err with
  | some e => simpa [herr] using ⟨hnd, hsk, hsub, hdump⟩
  | none =>
    simp only [herr]
    by_cases hlist : "list" ∈ r.verbs
    · rw [if_pos hlist]
      by_cases hkind : r.kind ∈ acc.dumped
      · rw [if_pos hkind]
        exact ⟨hnd, hsk, hsub, fun h => hdump herr⟩
      · rw [if_neg hkind]
        have hninv : r.kind ∉ acc.invoked := fun h => hkind (hdump herr r.kind h)
        rcases hdr : Pkg.dump_resource cfg env resource_path r acc.st with ⟨st', e⟩
        refine ⟨?_, ?_, ?_, ?_⟩
        · simpa [List.nodup_append] using ⟨hnd, fun h => hninv h⟩
        · intro k hk
          rcases List.mem_append.mp hk with h | h
          · exact hsk k h
          · have hk' : k = r.kind := by simpa using h
            intro hin
            exact hkind (hk' ▸ hsub k hin)
        · intro k hk
          by_cases he : e = none
          · rw [if_pos he]
            exact List.mem_append.mpr (Or.inl (hsub k hk))
          · rw [if_neg he]
            exact hsub k hk
        · intro he k hk
          simp only at he
          subst he
          simp only [if_pos rfl]
          rcases List.mem_append.mp hk with h | h
          · exact List.mem_append.mpr (Or.inl (hdump herr k h))
          · exact List.mem_append.mpr (Or.inr h)
    · rw [if_neg hlist]
      exact ⟨hnd, hsk, hsub, fun h => hdump herr⟩

/-- The outer loop body of `Pkg.dump_all` preserves the invariant. -/
theorem step_gv_inv (cfg : Pkg.MConfig) (env : Env) (acc : Pkg.Acc) (gv : String)
    (hP : Pkg.Inv cfg acc) : Pkg.Inv cfg (Pkg.step_gv cfg env acc gv) := by
  unfold Pkg.step_gv
  cases herr : acc.err with
  | some e =>
    simpa [herr] using hP
  | none =>
    simp only [herr]
    apply foldl_inv (P := Pkg.Inv cfg) _ (fun b a => step_resource_inv cfg env _ b a)
    obtain ⟨hnd, hsk, hsub, hdump⟩ := hP
    exact ⟨hnd, hsk, hsub, fun _ => hdump herr⟩

/-! ## The claims. -/

/-- C1 (counterexample): in the `batch` group, kind CronJob is exposed with
list support by the two non-preferred versions `batch/v1beta1` and
`batch/v2alpha1` but not by the preferred `batch/v1`; after the resolver's
two passes the registry entry for CronJob is the resource type of
`batch/v2alpha1` — a non-preferred version of the group — so the claim's
conclusion fails for a kind exposed by two versions of one group. -/
theorem C1_counterexample :
    Script.preferred_of vsBatch "batch/v1" = some vOne ∧
    (∃ r ∈ vBeta.resources, r.kind = "CronJob") ∧
    (∃ r ∈ vAlpha.resources, r.kind = "CronJob") ∧
    (∀ r ∈ vOne.resources, r.kind ≠ "CronJob") ∧
    (∃ r, alookup (Script.best_resources vsBatch vOne) "CronJob" = some r ∧
      r.gv = "batch/v2alpha1") ∧
    vOne.group_version = "batch/v1" := by decide

/-- C1 (amended): for every kind that the group's preferred version itself
exposes (after discovery's filtering), the registry entry produced by the
resolver's two passes is a resource type of the preferred version. -/
theorem C1_preferred_version_wins (vs : List APIVersion) (pref : String)
    (pv : APIVersion) (k : String)
    (hpv : Script.preferred_of vs pref = some pv)
    (hexp : ∃ r₀ ∈ pv.resources, r₀.kind = k) :
    ∃ r, alookup (Script.best_resources vs pv) k = some r ∧
      r ∈ pv.resources ∧ r.kind = k := by
  obtain ⟨r₀, hr₀, hk₀⟩ := hexp
  obtain ⟨r, hr⟩ := lastMatch_isSome (fun r => r.kind == k) pv.resources r₀ hr₀ (by simp [hk₀])
  refine ⟨r, ?_, (lastMatch_mem _ _ _ hr).1, by simpa using (lastMatch_mem _ _ _ hr).2⟩
  unfold Script.best_resources
  rw [alookup_insert_resources, hr]

/-- C1 (witness): in the same `batch` group, kind Job is exposed by the
preferred `batch/v1`, and its registry entry indeed comes from it. -/
theorem C1_witness :
    ∃ r, alookup (Script.best_resources vsBatch vOne) "Job" = some r ∧
      r ∈ vOne.resources ∧ r.kind = "Job" :=
  C1_preferred_version_wins vsBatch "batch/v1" vOne "Job" (by decide) (by decide)

/-- C5: the resource types discovery retains for a group-version are
exactly the advertised ones whose verbs include `list` and whose name has
no `/` (subresources), tagged with their group-version back-references. -/
theorem C5_discovery_filter (env : Env) (core : Bool) (gv : String) (r : APIResource) :
    r ∈ (Script.discover_version env core gv).resources ↔
      ∃ r₀ ∈ env.resourcesOf (get_api_group_version_resource_path gv),
        "list" ∈ r₀.verbs ∧ '/' ∉ r₀.name.toList ∧
          r = { r₀ with gv := gv, core := core } := by
  simp only [Script.discover_version, Script.tag_resources, Script.filter_resources,
    List.mem_map, List.mem_filter]
  constructor
  · rintro ⟨r₀, ⟨⟨hmem, hsep⟩, hlist⟩, hr⟩
    refine ⟨r₀, hmem, ?_, ?_, hr.symm⟩
    · simpa using hlist
    · simpa using hsep
  · rintro ⟨r₀, hmem, hlist, hsep, hr⟩
    refine ⟨r₀, ⟨⟨hmem, ?_⟩, ?_⟩, hr.symm⟩
    · simpa using hsep
    · simpa using hlist

/-- C8 (counterexample): the collection-level response reports kind
`DeploymentList`, but the item is stamped with the discovered resource
type's kind `Deployment`, so the stamped kind is not the kind the bulk
response reports at the collection level. -/
theorem C8_counterexample :
    resultDeployList.lookup "apiVersion" = some (.str "apps/v1") ∧
    resultDeployList.lookup "kind" = some (.str "DeploymentList") ∧
    (stamp (.str "apps/v1") "Deployment" objWeb).lookup "kind" = some (.str "Deployment") ∧
    (stamp (.str "apps/v1") "Deployment" objWeb).lookup "kind" ≠ resultDeployList.lookup "kind" := by
  refine ⟨rfl, rfl, rfl, ?_⟩
  intro h
  rw [show (stamp (.str "apps/v1") "Deployment" objWeb).lookup "kind"
        = some (.str "Deployment") from rfl,
      show resultDeployList.lookup "kind" = some (.str "DeploymentList") from rfl] at h
  injection h with h1
  injection h1 with h2
  exact absurd h2 (by decide)

/-- C8 (amended): every listed item is stamped with the apiVersion the bulk
response reports once at the collection level, and with the kind of the
discovered resource type being listed (not the collection's own `kind`
field). -/
theorem C8_stamping (result av : Json) (kind : String) (kvs : List (String × Json))
    (hav : result.lookup "apiVersion" = some av) :
    (stamp av kind (.obj kvs)).lookup "apiVersion" = result.lookup "apiVersion" ∧
      (stamp av kind (.obj kvs)).lookup "kind" = some (.str kind) := by
  rw [hav]
  exact stamp_lookup av kind kvs

/-- C8 (witness): the amended stamping facts at the concrete deployment
collection response. -/
theorem C8_witness :
    (stamp (.str "apps/v1") "Deployment" (.obj [("metadata", .obj [("name", .str "web"),
        ("namespace", .str "default")])])).lookup "apiVersion"
      = resultDeployList.lookup "apiVersion" ∧
    (stamp (.str "apps/v1") "Deployment" (.obj [("metadata", .obj [("name", .str "web"),
        ("namespace", .str "default")])])).lookup "kind" = some (.str "Deployment") :=
  C8_stamping resultDeployList (.str "apps/v1") "Deployment" _ rfl

/-- C2: with `skip_owned` enabled, an object whose metadata contains the
key `ownerReferences` — whatever its value — is skipped entirely (the
returned state is untouched: no write, no call, no warning), and an object
whose metadata lacks the key is not skipped: its output file is created. -/
theorem C2_skip_owned_key_presence (cfg : Config) (env : Env)
    (api_group resource_path list_path : String) (resource : APIResource)
    (result obj md av : Json) (obj_name obj_namespace : String) (st : St)
    (hmd : obj.lookup "metadata" = some md)
    (hname : md.lookup "name" = some (.str obj_name))
    (hns : (if resource.namespaced then md.lookup "namespace" else some (.str "_"))
        = some (.str obj_namespace))
    (hav : result.lookup "apiVersion" = some av)
    (hskip : cfg.skip_owned = true)
    (hfmt : cfg.format = "yaml") :
    ("ownerReferences" ∈ md.keys →
      Script.dump_object cfg env api_group resource_path list_path resource result obj st
        = (st, none)) ∧
    ("ownerReferences" ∉ md.keys →
      ∃ rest,
        (Script.dump_object cfg env api_group resource_path list_path resource result obj st).1.writes
          = st.writes ++
            (Script.object_filepath_of cfg api_group resource.kind obj_namespace obj_name
              ++ ".yaml", "") :: rest) := by
  constructor
  · intro hmem
    simp only [Script.dump_object, hmd, hname, hns, hav]
    rw [if_pos ⟨hskip, hmem⟩]
  · intro hmem
    obtain ⟨rest, hw, -⟩ :=
      (dump_object_writes cfg env api_group resource_path list_path resource result obj md av
        obj_name obj_namespace st hmd hname hns hav (fun hc => hmem hc.2)).1 hfmt
    exact ⟨rest, hw⟩

/-- C2 (witness): at the default configuration, an owned pod (with an empty
`ownerReferences` sequence) produces no event at all, and the unowned pod's
file is created. -/
theorem C2_witness :
    ("ownerReferences" ∈ (Json.obj [("name", .str "owned"), ("namespace", .str "default"),
        ("ownerReferences", .arr [])]).keys →
      Script.dump_object (cfgY []) (envPods (.ok "data")) "_core" "/api/v1" "/api/v1/pods"
          resPods resultPods objOwned {} = ({}, none)) ∧
    ("ownerReferences" ∉ (Json.obj [("name", .str "owned"), ("namespace", .str "default"),
        ("ownerReferences", .arr [])]).keys →
      ∃ rest,
        (Script.dump_object (cfgY []) (envPods (.ok "data")) "_core" "/api/v1" "/api/v1/pods"
            resPods resultPods objOwned {}).1.writes
          = ({} : St).writes ++
            (Script.object_filepath_of (cfgY []) "_core" resPods.kind "default" "owned"
              ++ ".yaml", "") :: rest) :=
  C2_skip_owned_key_presence (cfgY []) (envPods (.ok "data")) "_core" "/api/v1" "/api/v1/pods"
    resPods resultPods objOwned
    (.obj [("name", .str "owned"), ("namespace", .str "default"), ("ownerReferences", .arr [])])
    (.str "v1") "owned" "default" {} rfl rfl rfl rfl rfl rfl

/-- C3: in YAML format with improved fidelity, for an object that passes
the skip check the file is first truncated, then the per-object fetch is
made; a successful fetch writes the served text with no warning; a 406
failure still produces the file — holding the generic serialization of the
stamped list-derived document — and logs exactly one warning, with the step
succeeding so the run continues; any other status aborts the step with
that `ApiException` (nothing is retried, no fallback is written). -/
theorem C3_improved_yaml_fallback (cfg : Config) (env : Env)
    (api_group resource_path list_path : String) (resource : APIResource)
    (result obj md av : Json) (obj_name obj_namespace : String) (st : St)
    (hmd : obj.lookup "metadata" = some md)
    (hname : md.lookup "name" = some (.str obj_name))
    (hns : (if resource.namespaced then md.lookup "namespace" else some (.str "_"))
        = some (.str obj_namespace))
    (hav : result.lookup "apiVersion" = some av)
    (hown : ¬ (cfg.skip_owned = true ∧ "ownerReferences" ∈ md.keys))
    (hfmt : cfg.format = "yaml") (himp : cfg.improved_yaml = true) :
    (∀ d, env.objOf (obj_path_of resource_path list_path resource obj_namespace obj_name) = .ok d →
      Script.dump_object cfg env api_group resource_path list_path resource result obj st =
        ({ writes := st.writes ++
            [(Script.object_filepath_of cfg api_group resource.kind obj_namespace obj_name
                ++ ".yaml", ""),
             (Script.object_filepath_of cfg api_group resource.kind obj_namespace obj_name
                ++ ".yaml", d)],
           warnings := st.warnings,
           calls := st.calls ++
             [obj_path_of resource_path list_path resource obj_namespace obj_name] },
         none)) ∧
    (env.objOf (obj_path_of resource_path list_path resource obj_namespace obj_name)
        = .error 406 →
      Script.dump_object cfg env api_group resource_path list_path resource result obj st =
        ({ writes := st.writes ++
            [(Script.object_filepath_of cfg api_group resource.kind obj_namespace obj_name
                ++ ".yaml", ""),
             (Script.object_filepath_of cfg api_group resource.kind obj_namespace obj_name
                ++ ".yaml", yamlDump (stamp av resource.kind obj))],
           warnings := st.warnings ++
             ["Cant get improved yaml "
               ++ obj_path_of resource_path list_path resource obj_namespace obj_name
               ++ ", fallback to ordinary yaml"],
           calls := st.calls ++
             [obj_path_of resource_path list_path resource obj_namespace obj_name] },
         none)) ∧
    (∀ s, s ≠ 406 →
      env.objOf (obj_path_of resource_path list_path resource obj_namespace obj_name)
        = .error s →
      Script.dump_object cfg env api_group resource_path list_path resource result obj st =
        ({ writes := st.writes ++
            [(Script.object_filepath_of cfg api_group resource.kind obj_namespace obj_name
                ++ ".yaml", "")],
           warnings := st.warnings,
           calls := st.calls ++
             [obj_path_of resource_path list_path resource obj_namespace obj_name] },
         some (.api s))) := by
  refine ⟨?_, ?_, ?_⟩
  · intro d hd
    simp only [Script.dump_object, hmd, hname, hns, hav]
    rw [if_neg hown]
    simp only [hfmt, himp, hd]
    simp [writeFile, recordCall, warn, List.append_assoc]
  · intro hd
    simp only [Script.dump_object, hmd, hname, hns, hav]
    rw [if_neg hown]
    simp only [hfmt, himp, hd]
    simp [writeFile, recordCall, warn, List.append_assoc]
  · intro s hs hd
    simp only [Script.dump_object, hmd, hname, hns, hav]
    rw [if_neg hown]
    simp only [hfmt, himp, hd]
    rw [if_neg hs]
    simp [writeFile, recordCall, warn, List.append_assoc]

/-- C3 (witness): a 406 response for pod `web`: `web.yaml` still appears,
holding the generic serialization of the stamped list item, with exactly
one warning. -/
theorem C3_witness :
    Script.dump_object (cfgY []) (envPods (.error 406)) "_core" "/api/v1" "/api/v1/pods"
        resPods resultPods objWeb {} =
      ({ writes := [("dump/default/_core/Pod/web.yaml", ""),
                    ("dump/default/_core/Pod/web.yaml",
                      yamlDump (stamp (.str "v1") "Pod" objWeb))],
         warnings := ["Cant get improved yaml /api/v1/namespaces/default/pods/web, fallback to ordinary yaml"],
         calls := ["/api/v1/namespaces/default/pods/web"] },
       none) := by
  have h := (C3_improved_yaml_fallback (cfgY []) (envPods (.error 406)) "_core" "/api/v1"
    "/api/v1/pods" resPods resultPods objWeb
    (.obj [("name", .str "web"), ("namespace", .str "default")]) (.str "v1") "web" "default" {}
    rfl rfl rfl rfl (by decide) rfl rfl).2.1 rfl
  simpa using h

/-- C6: the output path of every file an object's write step produces is
`<root>/<namespaceSegment>/<groupLabel>/<kind>/<name>.<ext>`, where the
namespace segment is the object's own `metadata.namespace` when the
resource type is namespaced and the fixed sentinel `"_"` when it is
cluster-scoped, and the extension follows the format. -/
theorem C6_output_path (cfg : Config) (env : Env)
    (api_group resource_path list_path : String) (resource : APIResource)
    (result obj md av : Json) (obj_name obj_namespace : String) (st : St)
    (hmd : obj.lookup "metadata" = some md)
    (hname : md.lookup "name" = some (.str obj_name))
    (hns : if resource.namespaced then md.lookup "namespace" = some (.str obj_namespace)
      else obj_namespace = "_")
    (hav : result.lookup "apiVersion" = some av)
    (hown : ¬ (cfg.skip_owned = true ∧ "ownerReferences" ∈ md.keys)) :
    (cfg.format = "yaml" →
      ∃ rest,
        (Script.dump_object cfg env api_group resource_path list_path resource result obj st).1.writes
          = st.writes ++
            (cfg.output_dir ++ "/" ++ obj_namespace ++ "/" ++ api_group ++ "/"
              ++ resource.kind ++ "/" ++ obj_name ++ ".yaml", "") :: rest ∧
        ∀ pc ∈ rest, pc.1 = cfg.output_dir ++ "/" ++ obj_namespace ++ "/" ++ api_group
          ++ "/" ++ resource.kind ++ "/" ++ obj_name ++ ".yaml") ∧
    (cfg.format = "json" →
      (Script.dump_object cfg env api_group resource_path list_path resource result obj st).1.writes
        = st.writes ++
          [(cfg.output_dir ++ "/" ++ obj_namespace ++ "/" ++ api_group ++ "/"
              ++ resource.kind ++ "/" ++ obj_name ++ ".json", ""),
           (cfg.output_dir ++ "/" ++ obj_namespace ++ "/" ++ api_group ++ "/"
              ++ resource.kind ++ "/" ++ obj_name ++ ".json",
            jsonDump (stamp av resource.kind obj))]) := by
  have hns' : (if resource.namespaced then md.lookup "namespace" else some (.str "_"))
      = some (.str obj_namespace) := by
    by_cases h : resource.namespaced
    · rw [if_pos h] at hns ⊢
      exact hns
    · rw [if_neg h] at hns ⊢
      rw [hns]
  simpa only [Script.object_filepath_of] using
    dump_object_writes cfg env api_group resource_path list_path resource result obj md av
      obj_name obj_namespace st hmd hname hns' hav hown

/-- C6 (witness): the namespaced pod `web` of namespace `default` goes to
`dump/default/_core/Pod/web.yaml`. -/
theorem C6_witness :
    ((cfgY []).format = "yaml" →
      ∃ rest,
        (Script.dump_object (cfgY []) (envPods (.ok "data")) "_core" "/api/v1" "/api/v1/pods"
            resPods resultPods objWeb {}).1.writes
          = ({} : St).writes ++
            ((cfgY []).output_dir ++ "/" ++ "default" ++ "/" ++ "_core" ++ "/"
              ++ resPods.kind ++ "/" ++ "web" ++ ".yaml", "") :: rest ∧
        ∀ pc ∈ rest, pc.1 = (cfgY []).output_dir ++ "/" ++ "default" ++ "/" ++ "_core"
          ++ "/" ++ resPods.kind ++ "/" ++ "web" ++ ".yaml") ∧
    ((cfgY []).format = "json" →
      (Script.dump_object (cfgY []) (envPods (.ok "data")) "_core" "/api/v1" "/api/v1/pods"
          resPods resultPods objWeb {}).1.writes
        = ({} : St).writes ++
          [((cfgY []).output_dir ++ "/" ++ "default" ++ "/" ++ "_core" ++ "/"
              ++ resPods.kind ++ "/" ++ "web" ++ ".json", ""),
           ((cfgY []).output_dir ++ "/" ++ "default" ++ "/" ++ "_core" ++ "/"
              ++ resPods.kind ++ "/" ++ "web" ++ ".json",
            jsonDump (stamp (.str "v1") resPods.kind objWeb))]) :=
  C6_output_path (cfgY []) (envPods (.ok "data")) "_core" "/api/v1" "/api/v1/pods"
    resPods resultPods objWeb (.obj [("name", .str "web"), ("namespace", .str "default")])
    (.str "v1") "web" "default" {} rfl rfl rfl rfl (by decide)

/-- C10: in YAML format with improved fidelity the object's file is
truncated before the per-object fetch; when that fetch fails with a
non-406 status the step aborts with that error, and the tree at that
moment — whatever it held before the run — contains an empty file at the
object's path. -/
theorem C10_truncation_survives_abort (cfg : Config) (env : Env)
    (api_group resource_path list_path : String) (resource : APIResource)
    (result obj md av : Json) (obj_name obj_namespace : String) (st : St) (s : Nat)
    (hmd : obj.lookup "metadata" = some md)
    (hname : md.lookup "name" = some (.str obj_name))
    (hns : (if resource.namespaced then md.lookup "namespace" else some (.str "_"))
        = some (.str obj_namespace))
    (hav : result.lookup "apiVersion" = some av)
    (hown : ¬ (cfg.skip_owned = true ∧ "ownerReferences" ∈ md.keys))
    (hfmt : cfg.format = "yaml") (himp : cfg.improved_yaml = true)
    (hs : s ≠ 406)
    (herr : env.objOf (obj_path_of resource_path list_path resource obj_namespace obj_name)
      = .error s) :
    (Script.dump_object cfg env api_group resource_path list_path resource result obj st).2
        = some (.api s) ∧
    ∀ fs, alookup (materialize fs
        (Script.dump_object cfg env api_group resource_path list_path resource result obj st).1.writes)
        (Script.object_filepath_of cfg api_group resource.kind obj_namespace obj_name ++ ".yaml")
      = some "" := by
  have hcomp :
      Script.dump_object cfg env api_group resource_path list_path resource result obj st =
        ({ writes := st.writes ++
            [(Script.object_filepath_of cfg api_group resource.kind obj_namespace obj_name
                ++ ".yaml", "")],
           warnings := st.warnings,
           calls := st.calls ++
             [obj_path_of resource_path list_path resource obj_namespace obj_name] },
         some (.api s)) := by
    simp only [Script.dump_object, hmd, hname, hns, hav]
    rw [if_neg hown]
    simp only [hfmt, himp, herr]
    rw [if_neg hs]
    simp [writeFile, recordCall, warn, List.append_assoc]
  rw [hcomp]
  exact ⟨rfl, fun fs => alookup_materialize_last fs st.writes _ ""⟩

/-- C10 (witness): a 500 response for pod `web` aborts the step, and the
materialized tree holds the empty `web.yaml` whatever the initial tree. -/
theorem C10_witness :
    (Script.dump_object (cfgY []) (envPods (.error 500)) "_core" "/api/v1" "/api/v1/pods"
        resPods resultPods objWeb {}).2 = some (.api 500) ∧
    ∀ fs, alookup (materialize fs
        (Script.dump_object (cfgY []) (envPods (.error 500)) "_core" "/api/v1" "/api/v1/pods"
          resPods resultPods objWeb {}).1.writes)
        (Script.object_filepath_of (cfgY []) "_core" resPods.kind "default" "web" ++ ".yaml")
      = some "" :=
  C10_truncation_survives_abort (cfgY []) (envPods (.error 500)) "_core" "/api/v1"
    "/api/v1/pods" resPods resultPods objWeb
    (.obj [("name", .str "web"), ("namespace", .str "default")])
    (.str "v1") "web" "default" {} 500 rfl rfl rfl rfl (by decide) rfl rfl (by decide) rfl

/-- C9: with clean-on-start enabled (and fast YAML fidelity, as the claim
stipulates), the output tree under the output root after a run is
independent of whatever the filesystem held before the run: two runs over
the same server responses leave identical trees at every path under the
root — in particular a second run over an unchanged cluster reproduces the
first run's tree byte for byte. -/
theorem C9_fast_determinism (cfg : Config) (env : Env)
    (fs1 fs2 : List (String × String)) (p : String)
    (hclean : cfg.clean_output = true)
    (hfast : cfg.improved_yaml = false)
    (hfmt : cfg.format = "yaml")
    (hp : strPrefix (cfg.output_dir ++ "/") p = true) :
    alookup (Script.run_tree cfg env fs1) p = alookup (Script.run_tree cfg env fs2) p := by
  unfold Script.run_tree
  rw [alookup_materialize, alookup_materialize]
  cases lastMatch (fun pc => pc.1 == p) (Script.dump_all cfg env).1.writes with
  | some pc => rfl
  | none => rw [alookup_clean_fs cfg fs1 p hclean hp, alookup_clean_fs cfg fs2 p hclean hp]

/-- C9 (witness): a fast-fidelity run from an empty tree and one from a
tree holding stale files agree at the pod's output path. -/
theorem C9_witness :
    alookup (Script.run_tree cfgFast envCmPods []) "dump/default/_core/Pod/web.yaml"
      = alookup (Script.run_tree cfgFast envCmPods
          [("dump/stale/_core/Pod/old.yaml", "stale"), ("elsewhere/f", "keep")])
          "dump/default/_core/Pod/web.yaml" :=
  C9_fast_determinism cfgFast envCmPods []
    [("dump/stale/_core/Pod/old.yaml", "stale"), ("elsewhere/f", "keep")]
    "dump/default/_core/Pod/web.yaml" rfl rfl rfl (by decide)

/-- C4: in `kube_dump/main.py`, the kinds for which a resource listing is
performed during a run are pairwise distinct and never in the configured
skip list — the denylist seeds `dumped_kinds` and every dumped kind joins
it, so no kind's listing is performed (and hence no kind's files are
written) twice, even when a kind is reachable through several
group-versions. -/
theorem C4_no_kind_twice (cfg : Pkg.MConfig) (env : Env) :
    (Pkg.dump_all cfg env).invoked.Nodup ∧
      ∀ k ∈ (Pkg.dump_all cfg env).invoked, k ∉ cfg.skip_kinds := by
  have h : Pkg.Inv cfg (Pkg.dump_all cfg env) := by
    unfold Pkg.dump_all
    apply foldl_inv (P := Pkg.Inv cfg) _ (fun b a => step_gv_inv cfg env b a)
    exact ⟨List.nodup_nil, by simp, fun k hk => hk, fun _ => by simp⟩
  exact ⟨h.1, h.2.1⟩

/-- C7 (counterexample): in `kube-dump.py` the skip list is compared
against `'{group}/{kind}'` strings, so a bare kind entry `"ConfigMap"`
matches nothing: the run completes, the ConfigMap file is written, and the
per-object fidelity call for it is made — contradicting the claim that a
kind entry suppresses both. -/
theorem C7_counterexample :
    (Script.dump_all (cfgY ["ConfigMap"]) envCmPods).2 = none ∧
    ("dump/default/_core/ConfigMap/cm1.yaml",
        "served /api/v1/namespaces/default/configmaps/cm1")
      ∈ (Script.dump_all (cfgY ["ConfigMap"]) envCmPods).1.writes ∧
    "/api/v1/namespaces/default/configmaps/cm1"
      ∈ (Script.dump_all (cfgY ["ConfigMap"]) envCmPods).1.calls := by decide

/-- C7 (amended): with the group/kind form `"_core/ConfigMap"` in the skip
list, the same run writes no ConfigMap file and issues no network call to
any ConfigMap endpoint — neither the collection list nor the per-object
fidelity fetch — while other kinds are still dumped. -/
theorem C7_group_kind_skip :
    Script.dump_all (cfgY ["_core/ConfigMap"]) envCmPods =
      ({ writes := [("dump/default/_core/Pod/web.yaml", ""),
                    ("dump/default/_core/Pod/web.yaml",
                      "served /api/v1/namespaces/default/pods/web")],
         warnings := [],
         calls := ["/apis/", "/api/v1", "/api/v1/pods",
                   "/api/v1/namespaces/default/pods/web"] },
       none) := by decide

end KubeDump
